import Mathlib

/-!
Verification development for the `result_py` repository.

The repository consists of a single file, `setup.py`: a declarative
packaging manifest that makes one call to `distutils.core.setup` with
literal keyword arguments.  We embed the manifest both as a small
Python-statement AST (faithful to the module-level statements of the
file) and as the exact line-by-line text of the file, and prove the
claimed properties of its fields.
-/

namespace ResultPy

/-- A Python expression as it occurs in `setup.py`.  Every list literal in
the manifest is a list of string literals, so list displays are embedded
as `strListLit`.  `var` (a name reference) is included so that "all
arguments are literal constants" is a non-trivial statement. -/
inductive PyExpr where
  | strLit (s : String)
  | strListLit (elems : List String)
  | var (name : String)
deriving DecidableEq

/-- A module-level Python statement as it occurs in `setup.py`.
`funcDef` and `classDef` are included so that "the file defines no
function and no class" is a non-trivial statement about the AST. -/
inductive PyStmt where
  | docstring (text : String)
  | importFrom (module ident : String)
  | exprCall (fn : String) (kwargs : List (String × PyExpr))
  | funcDef (name : String)
  | classDef (name : String)
deriving DecidableEq

/-- The keyword arguments of the single `setup(...)` call in `setup.py`
(lines 7-20), in source order, with the Python string-literal values
decoded (`Rust\'s` denotes an apostrophe). -/
def setupKwargs : List (String × PyExpr) :=
  [ ("name", .strLit "result_py"),
    ("packages", .strListLit ["result_py"]),
    ("version", .strLit "0.1.0"),
    ("description", .strLit "A Result type much like Rust\x27s, featuring generics and lovely combinators."),
    ("author", .strLit "Zack Mullaly"),
    ("author_email", .strLit "zsck@riseup.net"),
    ("url", .strLit "https://github.com/zsck/result_py"),
    ("download_url", .strLit "https://github.com/peterldowns/mypackage/archive/0.1.tar.gz"),
    ("keywords", .strListLit ["rust", "result", "generics", "type hinting"]),
    ("classifiers", .strListLit
      [ "Programming Language :: Python :: 3.5",
        "Programming Language :: Python :: 3.6",
        "Programming Language :: Python :: 3.7" ]) ]

/-- The module-level statements of `setup.py`, in order: the module
docstring, the import of `setup`, and the single `setup(...)` call. -/
def setupPyStmts : List PyStmt :=
  [ .docstring "setup.py\n",
    .importFrom "distutils.core" "setup",
    .exprCall "setup" setupKwargs ]

/-- The exact text of `setup.py`, line by line.  The file ends without a
trailing newline, so its content is these lines joined by a newline. -/
def setupPyLines : List String :=
  [ "\x27\x27\x27setup.py",
    "\x27\x27\x27",
    "",
    "from distutils.core import setup",
    "",
    "setup(",
    "  name = \x27result_py\x27,",
    "  packages = [\x27result_py\x27],",
    "  version = \x270.1.0\x27,",
    "  description = \x27A Result type much like Rust\\\x27s, featuring generics and lovely combinators.\x27,",
    "  author = \x27Zack Mullaly\x27,",
    "  author_email = \x27zsck@riseup.net\x27,",
    "  url = \x27https://github.com/zsck/result_py\x27, # use the URL to the github repo",
    "  download_url = \x27https://github.com/peterldowns/mypackage/archive/0.1.tar.gz\x27, # I\x27ll explain this in a second",
    "  keywords = [\x27rust\x27, \x27result\x27, \x27generics\x27, \x27type hinting\x27], # arbitrary keywords",
    "  classifiers = [",
    "    \x27Programming Language :: Python :: 3.5\x27,",
    "    \x27Programming Language :: Python :: 3.6\x27,",
    "    \x27Programming Language :: Python :: 3.7\x27,",
    "  ],",
    ")" ]

/-- The content of `setup.py` as a single string (no trailing newline). -/
def setupPyContent : String := String.intercalate "\n" setupPyLines

/-- The repository as given: exactly one file, `setup.py`. -/
def repoFiles : List (String × String) := [("setup.py", setupPyContent)]

/-- The keys of a keyword-argument list, in order. -/
def kwargKeys (kwargs : List (String × PyExpr)) : List String := kwargs.map Prod.fst

/-- Look up the value passed for a keyword argument. -/
def kwargValue (kwargs : List (String × PyExpr)) (key : String) : Option PyExpr :=
  (kwargs.find? (fun kv => kv.1 = key)).map Prod.snd

/-- The string value of a manifest field, when that field is passed a
string literal. -/
def manifestStr (key : String) : Option String :=
  match kwargValue setupKwargs key with
  | some (.strLit s) => some s
  | _ => none

/-- The list-of-strings value of a manifest field, when that field is
passed a list display of string literals. -/
def manifestStrList (key : String) : Option (List String) :=
  match kwargValue setupKwargs key with
  | some (.strListLit xs) => some xs
  | _ => none

/-- The calls (function name and keyword arguments) among a list of
statements, in order. -/
def callStmts (stmts : List PyStmt) : List (String × List (String × PyExpr)) :=
  stmts.filterMap fun st =>
    match st with
    | .exprCall fn kwargs => some (fn, kwargs)
    | _ => none

/-- Whether a statement defines a function or a class. -/
def isDefStmt : PyStmt → Bool
  | .funcDef _ => true
  | .classDef _ => true
  | _ => false

/-- Number of occurrences of a (non-empty) pattern inside a character
list, counting every start position. -/
def countOcc (pat : List Char) : List Char → Nat
  | [] => 0
  | c :: cs => (if pat.isPrefixOf (c :: cs) then 1 else 0) + countOcc pat cs

/-- Number of occurrences of a pattern inside a string. -/
def occurrences (pat s : String) : Nat := countOcc pat.toList s.toList

/-- Number of newline characters in a string. -/
def newlineCount (s : String) : Nat :=
  (s.toList.filter (fun c => c = '\n')).length

/-- Split a character list at every occurrence of a separator. -/
def splitOnChar (sep : Char) : List Char → List (List Char)
  | [] => [[]]
  | c :: cs =>
    let rest := splitOnChar sep cs
    if c = sep then [] :: rest
    else
      match rest with
      | [] => [[c]]
      | r :: rs => (c :: r) :: rs

/-- The `/`-separated components of a URL. -/
def pathComponents (u : String) : List String :=
  (splitOnChar '/' u.toList).map (fun cs => String.mk cs)

/-- The `owner/repo` part of a `https://github.com/owner/repo/...` URL. -/
def githubRepoOf (u : String) : Option String :=
  match pathComponents u with
  | _scheme :: "" :: "github.com" :: owner :: repo :: _ =>
      some (owner ++ "/" ++ repo)
  | _ => none

/-- Remove a suffix from a character list, when it is one. -/
def dropSuffix (suf cs : List Char) : Option (List Char) :=
  if suf.reverse.isPrefixOf cs.reverse then some (cs.take (cs.length - suf.length))
  else none

/-- The version component of a GitHub archive URL
`https://github.com/owner/repo/archive/VERSION.tar.gz`: the path
component following `archive`, with the `.tar.gz` suffix removed. -/
def archiveVersionOf (u : String) : Option String :=
  match pathComponents u with
  | _scheme :: "" :: "github.com" :: _owner :: _repo :: "archive" :: rest =>
      match rest with
      | [file] => (dropSuffix ".tar.gz".toList file.toList).map (fun cs => String.mk cs)
      | _ => none
  | _ => none

/-- A valid version identifier: a non-empty, dot-separated sequence of
non-empty decimal-digit components. -/
def isValidVersion (s : String) : Bool :=
  let comps := splitOnChar '.' s.toList
  !comps.isEmpty && comps.all (fun cs => !cs.isEmpty && cs.all Char.isDigit)

/-- Whether an expression is a literal constant (no name reference). -/
def isLiteral : PyExpr → Bool
  | .strLit _ => true
  | .strListLit _ => true
  | .var _ => false

/-- Evaluate an expression in an environment giving the values of free
names.  Literals evaluate to themselves; a name reference reads the
environment. -/
def evalExpr (env : String → PyExpr) : PyExpr → PyExpr
  | .strLit s => .strLit s
  | .strListLit xs => .strListLit xs
  | .var x => env x

/-- Evaluating the module produces the list of `setup(...)` calls it
performs, each with its keyword arguments evaluated in `env`. -/
def setupCallsOf (stmts : List PyStmt) (env : String → PyExpr) :
    List (List (String × PyExpr)) :=
  stmts.filterMap fun st =>
    match st with
    | .exprCall "setup" kwargs =>
        some (kwargs.map (fun kv => (kv.1, evalExpr env kv.2)))
    | _ => none

/-- The field set named by the specification (section 6), for comparison
with the keyword arguments the source actually passes. -/
def specFieldSet : List String :=
  [ "name", "packages", "version", "description", "author",
    "author_email", "url", "download_url", "keywords", "classifiers" ]

/-- The classifier string for Python minor version `3.x`. -/
def pyClassifier (x : Nat) : String :=
  "Programming Language :: Python :: 3." ++ toString x

/-- Executable strict lexicographic order on character lists. -/
def ltChars : List Char → List Char → Bool
  | [], [] => false
  | [], _ :: _ => true
  | _ :: _, [] => false
  | a :: as, b :: bs => if a < b then true else if b < a then false else ltChars as bs

/-- Executable strict lexicographic order on strings. -/
def ltStr (a b : String) : Bool := ltChars a.toList b.toList

/-- Whether a list is sorted strictly increasingly by `lt`. -/
def sortedStrictBy {α : Type} (lt : α → α → Bool) : List α → Bool
  | [] => true
  | [_] => true
  | a :: b :: rest => lt a b && sortedStrictBy lt (b :: rest)

set_option maxRecDepth 40000

/-- C1: the single `setup` call passes exactly the ten fields `name`,
`packages`, `version`, `description`, `author`, `author_email`, `url`,
`download_url`, `keywords`, `classifiers` as keyword arguments, and no
keyword argument outside this set. -/
theorem C1_manifest_fields :
    callStmts setupPyStmts = [("setup", setupKwargs)] ∧
    kwargKeys setupKwargs = specFieldSet := ⟨rfl, rfl⟩

/-- C2: evaluation of the manifest at the inconsistent fields.  The
`download_url` field names the repository `peterldowns/mypackage`, not the
repository `zsck/result_py` named by the `url` field, and its archive
version component is `0.1`, not the declared version `0.1.0`.  This
refutes the claimed internal consistency on the code as written. -/
theorem C2_download_url_inconsistent :
    (manifestStr "url").bind githubRepoOf = some "zsck/result_py" ∧
    (manifestStr "download_url").bind githubRepoOf = some "peterldowns/mypackage" ∧
    (manifestStr "download_url").bind githubRepoOf ≠ (manifestStr "url").bind githubRepoOf ∧
    (manifestStr "download_url").bind archiveVersionOf = some "0.1" ∧
    manifestStr "version" = some "0.1.0" ∧
    (manifestStr "download_url").bind archiveVersionOf ≠ manifestStr "version" := by
  refine ⟨rfl, rfl, by decide, rfl, rfl, by decide⟩

/-- C3: the `version` field's value is `0.1.0`, and it is a valid version
identifier: a non-empty dot-separated sequence of decimal numeric
components. -/
theorem C3_version_valid :
    manifestStr "version" = some "0.1.0" ∧ isValidVersion "0.1.0" = true := by
  refine ⟨rfl, by decide⟩

/-- C4: the source defines no function and no class, and the word
`Result` occurs exactly once in the whole file, inside the value of the
`description` field (source line 10, index 9). -/
theorem C4_no_implementation :
    (setupPyStmts.all fun st => !isDefStmt st) = true ∧
    occurrences "Result" setupPyContent = 1 ∧
    (manifestStr "description").map (occurrences "Result") = some 1 ∧
    (setupPyLines.filter (fun l => 0 < occurrences "Result" l)).length = 1 ∧
    0 < occurrences "Result" (setupPyLines.getD 9 "") := by
  refine ⟨by decide, by decide, by decide, by decide, by decide⟩

/-- C5 (refuted as stated): the file `setup.py` does not consist of
exactly 20 lines — split at its newlines, its text has 21 lines, the
last one unterminated. -/
theorem C5_twenty_lines_refuted : ¬ setupPyLines.length = 20 := by decide

/-- C5 (amended): the repository as given consists of a single file
`setup.py` of exactly 21 lines of packaging metadata (20 newline
characters; the final line is unterminated) and nothing else. -/
theorem C5_line_count :
    repoFiles = [("setup.py", setupPyContent)] ∧
    setupPyContent = String.intercalate "\n" setupPyLines ∧
    setupPyLines.length = 21 ∧
    newlineCount setupPyContent = 20 := by
  refine ⟨rfl, rfl, by decide, by decide⟩

/-- C6: evaluating the module performs exactly one `setup` call, all of
whose keyword arguments are literal constants, so the resulting manifest
is independent of the environment: any two evaluations agree. -/
theorem C6_deterministic (env₁ env₂ : String → PyExpr) :
    setupCallsOf setupPyStmts env₁ = setupCallsOf setupPyStmts env₂ ∧
    setupCallsOf setupPyStmts env₁ = [setupKwargs] ∧
    (setupCallsOf setupPyStmts env₁).length = 1 ∧
    setupKwargs.all (fun kv => isLiteral kv.2) = true :=
  ⟨rfl, rfl, rfl, by decide⟩

/-- Witness for C6 at two concrete, disagreeing environments. -/
theorem C6_deterministic_witness :
    setupCallsOf setupPyStmts (fun _ => .strLit "a") =
      setupCallsOf setupPyStmts (fun n => .var n) ∧
    setupCallsOf setupPyStmts (fun _ => .strLit "a") = [setupKwargs] ∧
    (setupCallsOf setupPyStmts (fun _ => .strLit "a")).length = 1 ∧
    setupKwargs.all (fun kv => isLiteral kv.2) = true :=
  C6_deterministic (fun _ => .strLit "a") (fun n => .var n)

/-- C7: the `packages` field is a list with exactly one entry, and that
entry equals the value of the `name` field, `result_py`. -/
theorem C7_packages_single_name :
    manifestStr "name" = some "result_py" ∧
    manifestStrList "packages" = some ["result_py"] := ⟨rfl, rfl⟩

/-- C8: the `classifiers` field is exactly the three strings
`Programming Language :: Python :: 3.x` for `x` in `[5, 6, 7]`, in
strictly increasing order (both of `x` and lexicographically of the
strings), with no classifier of any other kind. -/
theorem C8_classifiers :
    manifestStrList "classifiers" = some ([5, 6, 7].map pyClassifier) ∧
    sortedStrictBy (fun a b : Nat => decide (a < b)) [5, 6, 7] = true ∧
    sortedStrictBy ltStr ([5, 6, 7].map pyClassifier) = true := by
  refine ⟨by decide, by decide, by decide⟩

/-- C9: the `keywords` field is exactly the four strings `rust`,
`result`, `generics`, `type hinting`, in that order. -/
theorem C9_keywords :
    manifestStrList "keywords" = some ["rust", "result", "generics", "type hinting"] :=
  rfl

end ResultPy
